import Mathlib

/-!
# Verification of the blocking client bridge (`src/blocking/client.rs`)

A shallow embedding of the synchronous-over-asynchronous HTTP client bridge:
builder configuration, the worker start-up handshake, the per-request
execute/wait path, the worker-side dispatch loop and `forward` task, and the
reference-counted teardown of the worker thread.

Durations are modelled in milliseconds as natural numbers.  Blocking waits on
futures are modelled by pairing each future with the wall-clock duration after
which its output becomes available.  Panics (`panic!`, `expect`) are modelled
as explicit `panicked` outcome constructors, since a Rust panic aborts the
calling thread rather than returning a value.
-/

deriving instance DecidableEq for Except

namespace BlockingClient

/-- Wall-clock durations, in milliseconds (`std::time::Duration`). -/
abbrev Duration := Nat

/-- `Duration::from_secs`. -/
def durationFromSecs (s : Nat) : Duration := s * 1000

/-- `crate::Error` kinds relevant to the bridge.  The real error type is
richer; the bridge only distinguishes builder errors, request/timeout errors,
engine-reported errors and body errors, each optionally carrying a URL. -/
inductive ErrorKind : Type where
  | builderErr (msg : String)
  | requestTimedOut
  | engine (msg : String)
  | bodyErr (msg : String)
deriving DecidableEq, Repr

/-- `crate::Error`: an error kind plus the optional URL attached via
`Error::with_url`. -/
structure RError : Type where
  kind : ErrorKind
  url : Option String
deriving DecidableEq, Repr

/-- `Error::with_url`: attach the originating URL to an error. -/
def RError.with_url (e : RError) (u : String) : RError := { e with url := some u }

/-- Modelled from the spec: `crate::error::request(TimedOut)` — the timeout
error built when the caller's bounded wait elapses (`error.rs` is not under
`src/`; the spec says the timeout error is recoverable and carries the
originating URL, attached separately via `with_url`). -/
def timeoutRequestError : RError := ⟨.requestTimedOut, none⟩

/-- The engine-side configuration (`async_impl::ClientBuilder`), treated as
pass-through data.  `connect_timeout` is the one field the claims inspect;
the remaining enumerated options are carried opaquely as a list of settings. -/
structure AsyncConfig : Type where
  connectTimeout : Option Duration
  settings : List String
deriving DecidableEq, Repr

/-- `async_impl::ClientBuilder::new()` (engine defaults; connect timeout
defaults to `None`). -/
def AsyncConfig.new : AsyncConfig := ⟨none, []⟩

/-- `async_impl::ClientBuilder::connect_timeout(dur)`: record the connect
phase bound in the engine configuration. -/
def AsyncConfig.connect_timeout (c : AsyncConfig) (dur : Duration) : AsyncConfig :=
  { c with connectTimeout := some dur }

/-- The client-wide `Timeout` newtype: `Option<Duration>` where `none` means
wait indefinitely. -/
structure Timeout : Type where
  val : Option Duration
deriving DecidableEq, Repr

/-- `impl Default for Timeout`: 30 seconds, as documented in
`ClientBuilder::timeout()`. -/
def Timeout.defaultVal : Timeout := ⟨some (durationFromSecs 30)⟩

/-- `blocking::ClientBuilder`: the engine configuration plus the blocking
`Timeout`. -/
structure ClientBuilder : Type where
  inner : AsyncConfig
  timeout : Timeout
deriving DecidableEq, Repr

/-- `ClientBuilder::new()`. -/
def ClientBuilder.new : ClientBuilder := ⟨AsyncConfig.new, Timeout.defaultVal⟩

/-- `ClientBuilder::with_inner`: apply a function to the engine config. -/
def ClientBuilder.with_inner (b : ClientBuilder) (f : AsyncConfig → AsyncConfig) :
    ClientBuilder :=
  { b with inner := f b.inner }

/-- `ClientBuilder::timeout`: set the overall blocking timeout (`None`
disables it). -/
def ClientBuilder.timeoutSet (b : ClientBuilder) (t : Option Duration) : ClientBuilder :=
  { b with timeout := ⟨t⟩ }

/-- `ClientBuilder::connect_timeout`: forwarded into the engine config when
`Some`, and a no-op when `None` (the source's `if let Some(dur)` has no
`else`-action branch: it returns `self` unchanged). -/
def ClientBuilder.connect_timeout (b : ClientBuilder) (t : Option Duration) :
    ClientBuilder :=
  match t with
  | some dur => b.with_inner (fun inner => inner.connect_timeout dur)
  | none => b

/-- A future paired with the wall-clock time (since the start of the blocking
wait) at which its output becomes available. -/
structure TimedFuture (α : Type) : Type where
  dur : Duration
  out : α
deriving DecidableEq, Repr

/-- The failure side of `wait::timeout`: the budget elapsed, or the future
itself resolved to an error. -/
inductive Waited (ε : Type) : Type where
  | timedOut
  | inner (e : ε)
deriving DecidableEq, Repr

/-- Modelled from the spec: `wait::timeout(fut, budget)` (`blocking/wait.rs`
is not under `src/`).  Block the calling thread until the future's output is
available, bounded by `budget`; `none` means wait indefinitely.  An `Ok`
output comes back as `ok`, an `Err` output as `inner`, and an elapsed budget
as `timedOut`. -/
def wait.timeout {ι ε : Type} (fut : TimedFuture (Except ε ι)) (budget : Option Duration) :
    Except (Waited ε) ι :=
  match budget with
  | none =>
    match fut.out with
    | .ok v => .ok v
    | .error e => .error (.inner e)
  | some d =>
    if fut.dur ≤ d then
      match fut.out with
      | .ok v => .ok v
      | .error e => .error (.inner e)
    else .error .timedOut

/-- `async_impl::Response` — opaque to the bridge. -/
structure EngineResponse : Type where
  data : String
deriving DecidableEq, Repr

/-- Modelled from the spec: `blocking::Response` (`blocking/response.rs` is
not under `src/`): the engine's response plus the client's `Timeout` (so body
reads stay bounded) plus a `KeepCoreThreadAlive` guard reference keeping the
worker alive. -/
structure Response : Type where
  inner : EngineResponse
  timeout : Option Duration
  keepAlive : Bool
deriving DecidableEq, Repr

/-- Modelled from the spec: the request reaching `execute`
(`blocking/request.rs` is not under `src/`).  `into_async` splits it into the
engine request (of which only the URL matters here) and an optional
body-streaming future resolving to unit success or a body error. -/
structure Request : Type where
  url : String
  body : Option (TimedFuture (Except RError Unit))
deriving DecidableEq, Repr

/-- What the response slot's consumer observes when its future resolves:
either the worker delivered a value (engine success or engine-reported
error), or the producer side vanished without a value (the worker panicked
or was torn down). -/
inductive SlotFate : Type where
  | delivered (r : Except RError EngineResponse)
  | producerDropped
deriving DecidableEq, Repr

/-- The message of `event_loop_panicked()` (line 760). -/
def eventLoopPanickedMsg : String := "event loop thread panicked"

/-- The error side of the future `execute_request` blocks on: a real
`crate::Error` raised by `body.send().await?`, or the diverging
`event_loop_panicked()` call in the `map_err` closure — the latter aborts
the calling thread instead of producing an error value, so `execute_request`
routes it to a panic outcome. -/
inductive ExecFutErr : Type where
  | inner (e : RError)
  | panicTh (msg : String)
deriving DecidableEq, Repr

/-- The future built in `execute_request` (lines 680–692).  With no body it
is `rx.await.map_err(|_canceled| event_loop_panicked())`.  With a body it is
`body.send().await?; rx.await.map_err(...)`: the two awaits are sequenced
inside one future, so its completion time is the sum of the two, with a body
error short-circuiting via the `?`. -/
def execFuture (body : Option (TimedFuture (Except RError Unit)))
    (slot : TimedFuture SlotFate) :
    TimedFuture (Except ExecFutErr (Except RError EngineResponse)) :=
  let slotPart : TimedFuture (Except ExecFutErr (Except RError EngineResponse)) :=
    ⟨slot.dur, match slot.out with
      | .delivered r => .ok r
      | .producerDropped => .error (.panicTh eventLoopPanickedMsg)⟩
  match body with
  | none => slotPart
  | some b =>
    match b.out with
    | .error e => ⟨b.dur, .error (.inner e)⟩
    | .ok _ => ⟨b.dur + slotPart.dur, slotPart.out⟩

/-- The unbounded dispatch channel (`mpsc::unbounded_channel`) as seen from a
sender: the queued messages and whether the receiving side (the worker's
dispatch loop) is still alive. -/
structure UnboundedChannel (μ : Type) : Type where
  queue : List μ
  receiverAlive : Bool
deriving DecidableEq, Repr

/-- `UnboundedSender::send`: never blocks — whatever the current queue, it
immediately appends the message and returns; it fails only when the receiver
has been dropped (the worker exited). -/
def UnboundedChannel.send {μ : Type} (ch : UnboundedChannel μ) (m : μ) :
    Except Unit (UnboundedChannel μ) :=
  if ch.receiverAlive then .ok { ch with queue := ch.queue ++ [m] } else .error ()

/-- `InnerClientHandle`: the dispatch-channel sender and the worker thread's
join handle, each `none` once taken during teardown. -/
structure InnerClientHandle : Type where
  tx : Option Unit
  thread : Option Unit
deriving DecidableEq, Repr

/-- `ClientHandle`: the client's `Timeout` plus the shared inner handle. -/
structure ClientHandle : Type where
  timeout : Timeout
  inner : InnerClientHandle
deriving DecidableEq, Repr

/-- What the calling thread observes from a call: a returned value, a
returned recoverable error, or a panic aborting the calling thread. -/
inductive ExecOutcome : Type where
  | ok (r : Response)
  | err (e : RError)
  | panicked (msg : String)
deriving DecidableEq, Repr

/-- `ClientHandle::execute_request` (lines 669–704): take the sender
(`expect`-panicking with "core thread exited early" if it was already taken),
submit on the dispatch channel (`expect`-panicking with "core thread
panicked" if the channel is closed), then block on the response slot —
with the body-streaming future sequenced in front when the request carries an
async body — bounded by the client's `Timeout`, and map the wait's outcome:
`Ok(Ok)` wraps the response with the timeout and a keep-alive guard,
`Ok(Err)` and `Err(Inner)` attach the request's URL to the error,
`Err(TimedOut)` returns the timeout error with the URL attached, and the
in-future `event_loop_panicked()` aborts the calling thread. -/
def ClientHandle.execute_request (h : ClientHandle) (ch : UnboundedChannel Request)
    (req : Request) (slot : TimedFuture SlotFate) : ExecOutcome :=
  let url := req.url
  match h.inner.tx with
  | none => .panicked "core thread exited early"
  | some _ =>
    match ch.send req with
    | .error _ => .panicked "core thread panicked"
    | .ok _ =>
      match wait.timeout (execFuture req.body slot) h.timeout.val with
      | .ok (.error e) => .err (e.with_url url)
      | .ok (.ok res) => .ok ⟨res, h.timeout.val, true⟩
      | .error .timedOut => .err (timeoutRequestError.with_url url)
      | .error (.inner (.inner e)) => .err (e.with_url url)
      | .error (.inner (.panicTh m)) => .panicked m

/-- `oneshot::error::RecvError`: the one-shot channel closed without a value
having been sent. -/
inductive RecvError : Type where
  | canceled
deriving DecidableEq, Repr

/-- Outcome of `ClientHandle::new` as seen by the spawning thread. -/
inductive BuildOutcome : Type where
  | ok (h : ClientHandle)
  | err (e : RError)
  | panicked (msg : String)
deriving DecidableEq, Repr

/-- The value the worker thread sends on the start-up channel (lines
608–631): the scheduler (`runtime`) build error if that fails, else the
engine (`client`) build error if that fails, else `Ok(())`. -/
def workerStartupMsg (runtimeBuild clientBuild : Except RError Unit) :
    Except RError Unit :=
  match runtimeBuild with
  | .error e => .error e
  | .ok _ =>
    match clientBuild with
    | .error e => .error e
    | .ok _ => .ok ()

/-- `ClientHandle::new` (lines 599–667): spawn the worker, then block on the
one-shot start-up channel via `wait::timeout(spawn_rx, None)` — the budget is
literally `None`, not the builder's timeout.  The start-up future resolves at
`startup.dur` to either the worker's sent `crate::Result<()>` or `RecvError`
(channel closed without a value).  `Ok(Ok(()))` yields the handle carrying
the builder's timeout, `Ok(Err(err))` returns the build error, and the
`Err(_canceled)` arm calls `event_loop_panicked()`. -/
def ClientHandle.new (b : ClientBuilder)
    (startup : TimedFuture (Except RecvError (Except RError Unit))) : BuildOutcome :=
  match wait.timeout startup none with
  | .ok (.ok _) => .ok ⟨b.timeout, ⟨some (), some ()⟩⟩
  | .ok (.error e) => .err e
  | .error _ => .panicked eventLoopPanickedMsg

/-- Whether the worker thread has exited. -/
inductive WorkerStatus : Type where
  | running
  | exited
deriving DecidableEq, Repr

/-- The observable teardown actions of `InnerClientHandle::drop`, in
order. -/
inductive TeardownAction : Type where
  | closeSender
  | joinThread
deriving DecidableEq, Repr

/-- Result of a completed teardown: the ordered action trace, the final
handle state, and the worker's status when the routine returns. -/
structure TeardownResult : Type where
  trace : List TeardownAction
  final : InnerClientHandle
  worker : WorkerStatus
deriving DecidableEq, Repr

/-- Outcome of running `InnerClientHandle::drop`. -/
inductive DropOutcome : Type where
  | completed (r : TeardownResult)
  | panicked (msg : String)
deriving DecidableEq, Repr

/-- `InnerClientHandle::drop` (lines 583–596): read the thread id
(`expect`-panicking if the join handle is already gone), then take and drop
the dispatch sender (`self.tx.take()` — the sole shutdown signal), then take
the join handle and block on `join()`, which returns only once the worker
thread has exited.  `join`'s `Result` — `Err` exactly when the worker
panicked, per `workerPanicked` — is discarded by the trailing `;`. -/
def InnerClientHandle.dropRun (s : InnerClientHandle) (workerPanicked : Bool) :
    DropOutcome :=
  match s.thread with
  | none => .panicked "thread not dropped yet"
  | some _ =>
    let afterClose : InnerClientHandle := { s with tx := none }
    let _joined : Except String Unit :=
      if workerPanicked then .error "worker thread panicked" else .ok ()
    let afterJoin : InnerClientHandle := { afterClose with thread := none }
    .completed ⟨[.closeSender, .joinThread], afterJoin, .exited⟩

/-- The reference count on the shared `Arc<InnerClientHandle>`, plus whether
the inner handle's `drop` has run. -/
structure ArcState : Type where
  count : Nat
  innerDropped : Bool
deriving DecidableEq, Repr

/-- Releasing one reference (dropping one `ClientHandle` clone or
`KeepCoreThreadAlive` guard): only the release that takes the count from one
to zero runs `InnerClientHandle::drop`; the returned flag records whether
this release ran it. -/
def arcRelease (a : ArcState) : ArcState × Bool :=
  if a.count = 1 then (⟨0, true⟩, true)
  else (⟨a.count - 1, a.innerDropped⟩, false)

/-- Perform `n` successive releases, counting how many of them ran the inner
drop. -/
def arcReleases (a : ArcState) : Nat → ArcState × Nat
  | 0 => (a, 0)
  | Nat.succ m =>
    let step := arcRelease a
    let rest := arcReleases step.1 m
    (rest.1, (if step.2 then 1 else 0) + rest.2)

/-- One wake-up of the `poll_fn` inside `forward`: what `fut.as_mut().poll`
reports at this wake (`some v` for `Ready`, `none` for `Pending`), and
whether `tx.poll_closed` would report the slot's consumer gone. -/
structure ForwardStep (α : Type) : Type where
  engine : Option α
  consumerGone : Bool
deriving DecidableEq, Repr

/-- Observable events of one run of `forward`: polling the engine future,
checking the consumer's closed-ness, and sending on the slot. -/
inductive ForwardEvent (α : Type) : Type where
  | polledEngine
  | checkedClosed
  | sent (v : α)
deriving DecidableEq, Repr

/-- `forward` (lines 707–732) over a schedule of wakes: each wake polls the
engine future first; on `Ready` the `poll_fn` loop ends and the value is sent
on the slot; only on `Pending` is `tx.poll_closed` consulted, and if the
consumer is gone the task ends with no send; otherwise the task suspends
until the next wake.  An exhausted schedule models a task still suspended. -/
def forwardRun {α : Type} : List (ForwardStep α) → List (ForwardEvent α)
  | [] => []
  | s :: rest =>
    match s.engine with
    | some v => [.polledEngine, .sent v]
    | none =>
      if s.consumerGone then [.polledEngine, .checkedClosed]
      else .polledEngine :: .checkedClosed :: forwardRun rest

/-- Number of slot writes in a `forward` event trace. -/
def sendCount {α : Type} : List (ForwardEvent α) → Nat
  | [] => 0
  | .sent _ :: es => 1 + sendCount es
  | .polledEngine :: es => sendCount es
  | .checkedClosed :: es => sendCount es

/-- A `(request, slot)` message as received by the dispatch loop. -/
structure DispatchMsg : Type where
  req : Request
  slotId : Nat
deriving DecidableEq, Repr

/-- The worker-side dispatch loop state: the channel's queued messages, the
number of live senders, the tasks spawned so far (in order of receipt), the
spawned tasks that have since completed (driven by the scheduler, not by the
loop), and whether `rx.recv()` has returned `None`. -/
structure DispatchState : Type where
  queue : List DispatchMsg
  senders : Nat
  spawned : List DispatchMsg
  finishedTasks : List DispatchMsg
  terminated : Bool
deriving DecidableEq, Repr

/-- One iteration of `while let Some((req, req_tx)) = rx.recv().await` (lines
633–641): when a message is queued, dequeue it and `tokio::spawn` the
`forward` task for it, without awaiting that task; when the queue is empty,
`recv` yields `None` (ending the loop) exactly when no senders remain, and
otherwise suspends, leaving the state unchanged. -/
def loopStep (s : DispatchState) : DispatchState :=
  if s.terminated then s
  else
    match s.queue with
    | m :: rest =>
      { s with queue := rest, spawned := s.spawned ++ [m] }
    | [] => if s.senders = 0 then { s with terminated := true } else s

end BlockingClient

namespace BlockingClient

/-- C9: Calling the `connect_timeout` setter with `None` leaves the builder
completely unchanged: it cannot clear or disable a connect timeout set by an
earlier call — for every builder state `b`, `connect_timeout b none = b`. -/
theorem connect_timeout_none_frame (b : ClientBuilder) :
    b.connect_timeout none = b := rfl

/-- C3: When the last reference to the shared worker state is released,
teardown first closes the dispatch sender and only then joins the worker
thread — the routine completes with trace `[closeSender, joinThread]` and the
worker already exited; and over `n + 1` references released one by one,
exactly one release runs this teardown (a release that does not take the
count to zero never does). -/
theorem teardown_close_then_join_once :
    (∀ (s : InnerClientHandle) (wp : Bool), s.thread = some () →
      s.dropRun wp =
        .completed ⟨[.closeSender, .joinThread], ⟨none, none⟩, .exited⟩) ∧
    (∀ n : Nat, arcReleases ⟨n + 1, false⟩ (n + 1) = (⟨0, true⟩, 1)) ∧
    (∀ (c : Nat) (d : Bool), c ≠ 1 → (arcRelease ⟨c, d⟩).2 = false) := by
  refine ⟨?_, ?_, ?_⟩
  · intro s wp hth
    obtain ⟨tx, th⟩ := s
    simp only at hth
    subst hth
    rfl
  · intro n
    induction n with
    | zero => rfl
    | succ m ih =>
      have h1 : arcRelease ⟨m + 2, false⟩ = (⟨m + 1, false⟩, false) := by
        simp [arcRelease]
      show arcReleases ⟨m + 2, false⟩ (m + 2) = (⟨0, true⟩, 1)
      rw [show m + 2 = Nat.succ (m + 1) from rfl, arcReleases, h1]
      simp [ih]
  · intro c d hc
    simp [arcRelease, hc]

/-- Witness for C3 at concrete inputs: a teardown of a live handle, three
releases of three references, and a non-final release. -/
theorem teardown_close_then_join_once_witness :
    InnerClientHandle.dropRun ⟨some (), some ()⟩ true =
      .completed ⟨[.closeSender, .joinThread], ⟨none, none⟩, .exited⟩ ∧
    arcReleases ⟨3, false⟩ 3 = (⟨0, true⟩, 1) ∧
    (arcRelease ⟨5, false⟩).2 = false :=
  ⟨teardown_close_then_join_once.1 ⟨some (), some ()⟩ true rfl,
   teardown_close_then_join_once.2.1 2,
   teardown_close_then_join_once.2.2 5 false (by decide)⟩

/-- C10: The final release discards the result of joining the worker thread:
the teardown's outcome does not depend on whether the worker panicked, and it
completes normally (no error or panic is propagated to the releasing
thread). -/
theorem drop_ignores_join_result (s : InnerClientHandle) (h : s.thread = some ()) :
    s.dropRun true = s.dropRun false ∧
    ∃ r : TeardownResult, s.dropRun true = .completed r := by
  obtain ⟨tx, th⟩ := s
  simp only at h
  subst h
  exact ⟨rfl, ⟨_, rfl⟩⟩

/-- Witness for C10: teardown of a live handle whose worker panicked. -/
theorem drop_ignores_join_result_witness :
    InnerClientHandle.dropRun ⟨some (), some ()⟩ true =
      InnerClientHandle.dropRun ⟨some (), some ()⟩ false ∧
    ∃ r : TeardownResult,
      InnerClientHandle.dropRun ⟨some (), some ()⟩ true = .completed r :=
  drop_ignores_join_result ⟨some (), some ()⟩ rfl

/-- C4: In every run of `forward` the slot is written at most once; the
consumer's closed-ness is consulted only at suspension points (a wake at
which the engine future is ready never reads the `consumerGone` flag); and
once the unit of work observes the consumer gone, nothing that happens later
in the schedule is ever looked at (no further polling) and the slot is never
written. -/
theorem forward_cooperative_cancellation {α : Type} :
    (∀ steps : List (ForwardStep α), sendCount (forwardRun steps) ≤ 1) ∧
    (∀ (v : α) (b b' : Bool) (rest : List (ForwardStep α)),
      forwardRun (⟨some v, b⟩ :: rest) = forwardRun (⟨some v, b'⟩ :: rest)) ∧
    (∀ (pre : List (ForwardStep α)) (s : ForwardStep α)
        (post post' : List (ForwardStep α)),
      (∀ p ∈ pre, p.engine = none ∧ p.consumerGone = false) →
      s.engine = none → s.consumerGone = true →
      forwardRun (pre ++ s :: post) = forwardRun (pre ++ s :: post') ∧
      sendCount (forwardRun (pre ++ s :: post)) = 0) := by
  refine ⟨?_, ?_, ?_⟩
  · intro steps
    induction steps with
    | nil => simp [forwardRun, sendCount]
    | cons s rest ih =>
      cases hs : s.engine with
      | some v => simp [forwardRun, hs, sendCount]
      | none =>
        by_cases hg : s.consumerGone
        · simp [forwardRun, hs, hg, sendCount]
        · simp only [forwardRun, hs, Bool.not_eq_true] at *
          simp [hg, sendCount, ih]
  · intro v b b' rest
    rfl
  · intro pre s post post'
    induction pre with
    | nil =>
      intro _ hse hsg
      obtain ⟨e, g⟩ := s
      simp only at hse hsg
      subst hse
      subst hsg
      exact ⟨by simp [forwardRun], by simp [forwardRun, sendCount]⟩
    | cons p pres ih =>
      intro hpre hse hsg
      obtain ⟨hpe, hpg⟩ := hpre p (by simp)
      have hrest : ∀ q ∈ pres, q.engine = none ∧ q.consumerGone = false :=
        fun q hq => hpre q (by simp [hq])
      obtain ⟨ihEq, ihSend⟩ := ih hrest hse hsg
      constructor
      · simp only [List.cons_append, forwardRun, hpe, hpg]
        simp [ihEq]
      · simp only [List.cons_append, forwardRun, hpe, hpg]
        simp [sendCount, ihSend]

/-- Witness for C4 at a concrete schedule: two pending wakes with the
consumer dropped at the second, followed by a ready step that is provably
never reached. -/
theorem forward_cooperative_cancellation_witness :
    sendCount (forwardRun [(⟨some 7, false⟩ : ForwardStep Nat)]) ≤ 1 ∧
    forwardRun [(⟨some 7, true⟩ : ForwardStep Nat)] =
      forwardRun [(⟨some 7, false⟩ : ForwardStep Nat)] ∧
    (forwardRun ([⟨none, false⟩] ++ (⟨none, true⟩ : ForwardStep Nat) :: [⟨some 3, false⟩]) =
        forwardRun ([⟨none, false⟩] ++ (⟨none, true⟩ : ForwardStep Nat) :: []) ∧
      sendCount
        (forwardRun ([⟨none, false⟩] ++ (⟨none, true⟩ : ForwardStep Nat) :: [⟨some 3, false⟩])) = 0) :=
  ⟨forward_cooperative_cancellation.1 [⟨some 7, false⟩],
   forward_cooperative_cancellation.2.1 7 true false [],
   forward_cooperative_cancellation.2.2 [⟨none, false⟩] ⟨none, true⟩ [⟨some 3, false⟩] []
     (by intro p hp; simp at hp; subst hp; exact ⟨rfl, rfl⟩) rfl rfl⟩

/-- C5: The dispatch loop, on receiving a queued `(request, slot)` message,
spawns a task for it and keeps accepting (its `terminated` flag stays
false) — and its behaviour is completely independent of which previously
spawned tasks have finished; it terminates exactly when the channel is empty
and no senders remain. -/
theorem dispatch_loop_spawns_and_terminates :
    (∀ (s : DispatchState) (m : DispatchMsg) (rest : List DispatchMsg),
      s.terminated = false → s.queue = m :: rest →
      loopStep s = { s with queue := rest, spawned := s.spawned ++ [m] }) ∧
    (∀ (s : DispatchState) (f : List DispatchMsg),
      loopStep { s with finishedTasks := f } = { loopStep s with finishedTasks := f }) ∧
    (∀ s : DispatchState, s.terminated = false →
      ((loopStep s).terminated = true ↔ s.queue = [] ∧ s.senders = 0)) := by
  refine ⟨?_, ?_, ?_⟩
  · intro s m rest ht hq
    simp [loopStep, ht, hq]
  · intro s f
    obtain ⟨q, sn, sp, ft, t⟩ := s
    cases t with
    | false =>
      cases q with
      | nil =>
        by_cases hs : sn = 0 <;> simp [loopStep, hs]
      | cons m rest => simp [loopStep]
    | true => simp [loopStep]
  · intro s ht
    obtain ⟨q, sn, sp, ft, t⟩ := s
    simp only at ht
    subst ht
    cases q with
    | nil =>
      by_cases hs : sn = 0 <;> simp [loopStep, hs]
    | cons m rest => simp [loopStep]

theorem wait_timeout_done {ι ε : Type} (fut : TimedFuture (Except ε ι))
    (budget : Option Duration) (hfit : ∀ d : Duration, budget = some d → fut.dur ≤ d) :
    wait.timeout fut budget =
      match fut.out with
      | .ok v => .ok v
      | .error e => .error (.inner e) := by
  cases budget with
  | none => rfl
  | some d => simp [wait.timeout, hfit d rfl]

theorem wait_timeout_elapsed {ι ε : Type} (fut : TimedFuture (Except ε ι)) (d : Duration)
    (hlate : d < fut.dur) : wait.timeout fut (some d) = .error .timedOut := by
  have hn : ¬ fut.dur ≤ d := Nat.not_le.mpr hlate
  simp [wait.timeout, hn]

theorem execute_request_submitted (h : ClientHandle) (ch : UnboundedChannel Request)
    (req : Request) (slot : TimedFuture SlotFate)
    (htx : h.inner.tx = some ()) (halive : ch.receiverAlive = true) :
    h.execute_request ch req slot =
      match wait.timeout (execFuture req.body slot) h.timeout.val with
      | .ok (.error e) => .err (e.with_url req.url)
      | .ok (.ok res) => .ok ⟨res, h.timeout.val, true⟩
      | .error .timedOut => .err (timeoutRequestError.with_url req.url)
      | .error (.inner (.inner e)) => .err (e.with_url req.url)
      | .error (.inner (.panicTh m)) => .panicked m := by
  simp [ClientHandle.execute_request, htx, UnboundedChannel.send, halive]

/-- C1: The blocking wait on the response slot has exactly three outcomes:
a delivered engine success is returned as a `Response`, a delivered
engine-reported failure as an error with the request's URL attached; an
elapsed timeout yields the timeout error carrying the URL; and a vanished
producer side aborts the calling thread with a panic rather than returning a
recoverable error. -/
theorem execute_wait_three_outcomes (h : ClientHandle) (ch : UnboundedChannel Request)
    (req : Request) (slot : TimedFuture SlotFate)
    (htx : h.inner.tx = some ()) (halive : ch.receiverAlive = true)
    (hbody : req.body = none) :
    ((∀ d : Duration, h.timeout.val = some d → slot.dur ≤ d) →
      (∀ res : EngineResponse, slot.out = .delivered (.ok res) →
        h.execute_request ch req slot = .ok ⟨res, h.timeout.val, true⟩) ∧
      (∀ e : RError, slot.out = .delivered (.error e) →
        h.execute_request ch req slot = .err (e.with_url req.url)) ∧
      (slot.out = .producerDropped →
        h.execute_request ch req slot = .panicked eventLoopPanickedMsg)) ∧
    (∀ d : Duration, h.timeout.val = some d → d < slot.dur →
      h.execute_request ch req slot = .err (timeoutRequestError.with_url req.url)) := by
  constructor
  · intro hfit
    have hfit' : ∀ d : Duration, h.timeout.val = some d →
        (execFuture req.body slot).dur ≤ d := by
      intro d hd
      rw [hbody]
      exact hfit d hd
    have hw := wait_timeout_done (execFuture req.body slot) h.timeout.val hfit'
    refine ⟨?_, ?_, ?_⟩
    · intro res hs
      rw [execute_request_submitted h ch req slot htx halive, hw]
      simp [hbody, execFuture, hs]
    · intro e hs
      rw [execute_request_submitted h ch req slot htx halive, hw]
      simp [hbody, execFuture, hs]
    · intro hs
      rw [execute_request_submitted h ch req slot htx halive, hw]
      simp [hbody, execFuture, hs]
  · intro d hb hlate
    have hlate' : d < (execFuture req.body slot).dur := by
      rw [hbody]
      exact hlate
    rw [execute_request_submitted h ch req slot htx halive, hb,
        wait_timeout_elapsed _ d hlate']

/-- Witness for C1: a delivered success within a one-second budget, and the
same request timing out when the slot resolves only after the budget. -/
theorem execute_wait_three_outcomes_witness :
    ClientHandle.execute_request ⟨⟨some 1000⟩, ⟨some (), some ()⟩⟩ ⟨[], true⟩
      ⟨"http://x/", none⟩ ⟨5, .delivered (.ok ⟨"payload"⟩)⟩ =
      .ok ⟨⟨"payload"⟩, some 1000, true⟩ ∧
    ClientHandle.execute_request ⟨⟨some 1000⟩, ⟨some (), some ()⟩⟩ ⟨[], true⟩
      ⟨"http://x/", none⟩ ⟨2000, .producerDropped⟩ =
      .err (timeoutRequestError.with_url "http://x/") :=
  ⟨((execute_wait_three_outcomes ⟨⟨some 1000⟩, ⟨some (), some ()⟩⟩ ⟨[], true⟩
      ⟨"http://x/", none⟩ ⟨5, .delivered (.ok ⟨"payload"⟩)⟩ rfl rfl rfl).1
      (by intro d hd; simp at hd; subst hd; decide)).1 ⟨"payload"⟩ rfl,
   (execute_wait_three_outcomes ⟨⟨some 1000⟩, ⟨some (), some ()⟩⟩ ⟨[], true⟩
      ⟨"http://x/", none⟩ ⟨2000, .producerDropped⟩ rfl rfl rfl).2 1000 rfl (by decide)⟩

/-- C2: `ClientHandle::new` blocks on the one-shot start-up channel with no
time bound (its outcome is independent of when the channel resolves — the
user's request timeout is not applied); a scheduler- or engine-construction
failure sent over the channel is returned as a recoverable build error; and a
channel closed without a value makes the calling thread panic instead of
returning an error. -/
theorem startup_handshake_unbounded (b : ClientBuilder)
    (startup : TimedFuture (Except RecvError (Except RError Unit))) :
    (∀ dur dur' : Duration,
      ClientHandle.new b ⟨dur, startup.out⟩ = ClientHandle.new b ⟨dur', startup.out⟩) ∧
    (∀ (rb cb : Except RError Unit) (e : RError),
      workerStartupMsg rb cb = .error e →
      startup.out = .ok (workerStartupMsg rb cb) →
      ClientHandle.new b startup = .err e) ∧
    (startup.out = .error .canceled →
      ClientHandle.new b startup = .panicked eventLoopPanickedMsg) := by
  refine ⟨?_, ?_, ?_⟩
  · intro dur dur'
    rfl
  · intro rb cb e hmsg hout
    rw [hmsg] at hout
    simp [ClientHandle.new, wait.timeout, hout]
  · intro hout
    simp [ClientHandle.new, wait.timeout, hout]

/-- Witness for C2: a failed engine construction surfacing as a build error,
and a closed start-up channel surfacing as a panic. -/
theorem startup_handshake_unbounded_witness :
    ClientHandle.new ClientBuilder.new ⟨0, .ok (.error ⟨.builderErr "tls", none⟩)⟩ =
      .err ⟨.builderErr "tls", none⟩ ∧
    ClientHandle.new ClientBuilder.new ⟨0, .error .canceled⟩ =
      .panicked eventLoopPanickedMsg :=
  ⟨(startup_handshake_unbounded ClientBuilder.new
      ⟨0, .ok (.error ⟨.builderErr "tls", none⟩)⟩).2.1
      (.ok ()) (.error ⟨.builderErr "tls", none⟩) ⟨.builderErr "tls", none⟩ rfl rfl,
   (startup_handshake_unbounded ClientBuilder.new ⟨0, .error .canceled⟩).2.2 rfl⟩

/-- C6: When the request carries an asynchronously streamed body, the body
streaming and the wait on the response slot run inside the same bounded
wait: the combined future's completion time is the sum of the two, a single
`Timeout` bounds that combined duration (exceeding it yields the timeout
error), and when the combined duration fits the budget the bounded wait
behaves exactly as the unbounded wait — there is no separate per-activity
budget. -/
theorem body_streaming_shares_timeout_budget (h : ClientHandle)
    (ch : UnboundedChannel Request) (req : Request)
    (b : TimedFuture (Except RError Unit)) (slot : TimedFuture SlotFate) (d : Duration)
    (htx : h.inner.tx = some ()) (halive : ch.receiverAlive = true)
    (hbody : req.body = some b) (hbok : b.out = .ok ())
    (hbudget : h.timeout.val = some d) :
    (execFuture req.body slot).dur = b.dur + slot.dur ∧
    (d < b.dur + slot.dur →
      h.execute_request ch req slot = .err (timeoutRequestError.with_url req.url)) ∧
    (b.dur + slot.dur ≤ d →
      wait.timeout (execFuture req.body slot) h.timeout.val =
        wait.timeout (execFuture req.body slot) none) := by
  have hdur : (execFuture req.body slot).dur = b.dur + slot.dur := by
    rw [hbody]
    simp [execFuture, hbok]
  refine ⟨hdur, ?_, ?_⟩
  · intro hlate
    have hlate' : d < (execFuture req.body slot).dur := by
      rw [hdur]
      exact hlate
    rw [execute_request_submitted h ch req slot htx halive, hbudget,
        wait_timeout_elapsed _ d hlate']
  · intro hfits
    have hle : (execFuture req.body slot).dur ≤ d := by
      rw [hdur]
      exact hfits
    rw [hbudget, wait_timeout_done _ (some d) (fun d' hd' => by
      injection hd' with hdd
      rw [← hdd]
      exact hle)]
    rfl

/-- Witness for C6: a 100 ms budget, body streaming taking 60 ms and the
slot a further 60 ms — each alone fits the budget, yet the shared budget is
exceeded and the call returns the timeout error. -/
theorem body_streaming_shares_timeout_budget_witness :
    ClientHandle.execute_request ⟨⟨some 100⟩, ⟨some (), some ()⟩⟩ ⟨[], true⟩
      ⟨"http://x/", some ⟨60, .ok ()⟩⟩ ⟨60, .delivered (.ok ⟨"p"⟩)⟩ =
      .err (timeoutRequestError.with_url "http://x/") :=
  (body_streaming_shares_timeout_budget ⟨⟨some 100⟩, ⟨some (), some ()⟩⟩ ⟨[], true⟩
      ⟨"http://x/", some ⟨60, .ok ()⟩⟩ ⟨60, .ok ()⟩ ⟨60, .delivered (.ok ⟨"p"⟩)⟩ 100
      rfl rfl rfl rfl rfl).2.1 (by decide)

/-- C7: A client built without calling the timeout setter carries a timeout
of exactly 30 seconds, applied to its blocking waits (a slot resolving after
30 s yields the timeout error); and a client whose timeout is `none` has no
bound applied — the outcome of the blocking wait is independent of how long
the slot takes to resolve. -/
theorem timeout_default_thirty_and_none_unbounded (ch : UnboundedChannel Request)
    (req : Request) (slot : TimedFuture SlotFate) :
    Timeout.defaultVal = ⟨some (durationFromSecs 30)⟩ ∧
    ClientBuilder.new.timeout = ⟨some (durationFromSecs 30)⟩ ∧
    (∀ (startup : TimedFuture (Except RecvError (Except RError Unit)))
        (hnd : ClientHandle),
      ClientHandle.new ClientBuilder.new startup = .ok hnd →
      hnd.timeout = ⟨some (durationFromSecs 30)⟩) ∧
    (∀ hnd : ClientHandle, hnd.inner.tx = some () → ch.receiverAlive = true →
      req.body = none → hnd.timeout = ⟨some (durationFromSecs 30)⟩ →
      durationFromSecs 30 < slot.dur →
      hnd.execute_request ch req slot = .err (timeoutRequestError.with_url req.url)) ∧
    (∀ hnd : ClientHandle, hnd.timeout = ⟨none⟩ → ∀ dur dur' : Duration,
      hnd.execute_request ch req ⟨dur, slot.out⟩ =
        hnd.execute_request ch req ⟨dur', slot.out⟩) := by
  refine ⟨rfl, rfl, ?_, ?_, ?_⟩
  · intro startup hnd hok
    obtain ⟨sd, so⟩ := startup
    cases so with
    | ok r =>
      cases r with
      | ok u =>
        simp [ClientHandle.new, wait.timeout] at hok
        rw [← hok]
        rfl
      | error e => simp [ClientHandle.new, wait.timeout] at hok
    | error e => simp [ClientHandle.new, wait.timeout] at hok
  · intro hnd htx halive hbody htime hlate
    have hlate' : durationFromSecs 30 < (execFuture req.body slot).dur := by
      rw [hbody]
      exact hlate
    have hb : hnd.timeout.val = some (durationFromSecs 30) := by rw [htime]
    rw [execute_request_submitted hnd ch req slot htx halive, hb,
        wait_timeout_elapsed _ _ hlate']
  · intro hnd htime dur dur'
    have hb : hnd.timeout.val = none := by rw [htime]
    cases htx : hnd.inner.tx with
    | none => simp [ClientHandle.execute_request, htx]
    | some u =>
      cases halive : ch.receiverAlive with
      | false =>
        simp [ClientHandle.execute_request, htx, UnboundedChannel.send, halive]
      | true =>
        have hsend : ch.send req = .ok { ch with queue := ch.queue ++ [req] } := by
          simp [UnboundedChannel.send, halive]
        cases hbody : req.body with
        | none =>
          simp [ClientHandle.execute_request, htx, hsend, hbody, execFuture,
            wait.timeout, hb]
        | some bf =>
          cases hbo : bf.out with
          | ok u' =>
            simp [ClientHandle.execute_request, htx, hsend, hbody, execFuture,
              wait.timeout, hb, hbo]
          | error e =>
            simp [ClientHandle.execute_request, htx, hsend, hbody, execFuture,
              wait.timeout, hb, hbo]

/-- Witness for C7: the default 30 s budget timing out on a slow slot, and a
`none` timeout producing the same outcome whether the slot takes one
nanosecond-equivalent step or an enormous duration. -/
theorem timeout_default_thirty_and_none_unbounded_witness :
    ClientHandle.execute_request ⟨⟨some (durationFromSecs 30)⟩, ⟨some (), some ()⟩⟩
      ⟨[], true⟩ ⟨"http://x/", none⟩ ⟨durationFromSecs 31, .delivered (.ok ⟨"p"⟩)⟩ =
      .err (timeoutRequestError.with_url "http://x/") ∧
    ClientHandle.execute_request ⟨⟨none⟩, ⟨some (), some ()⟩⟩ ⟨[], true⟩
      ⟨"http://x/", none⟩ ⟨999999999, .delivered (.ok ⟨"p"⟩)⟩ =
      ClientHandle.execute_request ⟨⟨none⟩, ⟨some (), some ()⟩⟩ ⟨[], true⟩
        ⟨"http://x/", none⟩ ⟨0, .delivered (.ok ⟨"p"⟩)⟩ :=
  ⟨(timeout_default_thirty_and_none_unbounded ⟨[], true⟩ ⟨"http://x/", none⟩
      ⟨durationFromSecs 31, .delivered (.ok ⟨"p"⟩)⟩).2.2.2.1
      ⟨⟨some (durationFromSecs 30)⟩, ⟨some (), some ()⟩⟩ rfl rfl rfl rfl
      (by decide),
   (timeout_default_thirty_and_none_unbounded ⟨[], true⟩ ⟨"http://x/", none⟩
      ⟨0, .delivered (.ok ⟨"p"⟩)⟩).2.2.2.2
      ⟨⟨none⟩, ⟨some (), some ()⟩⟩ rfl 999999999 0⟩

/-- C8: Submitting on the dispatch channel never blocks — for every current
queue the unbounded send immediately appends and returns — and when the
worker has already exited (sender taken, or channel closed) the submission
aborts the calling thread with a panic rather than returning a recoverable
error. -/
theorem submit_nonblocking_or_panics (h : ClientHandle) (ch : UnboundedChannel Request)
    (req : Request) (slot : TimedFuture SlotFate) :
    (ch.receiverAlive = true →
      ch.send req = .ok { ch with queue := ch.queue ++ [req] }) ∧
    (h.inner.tx = none →
      h.execute_request ch req slot = .panicked "core thread exited early") ∧
    (h.inner.tx = some () → ch.receiverAlive = false →
      h.execute_request ch req slot = .panicked "core thread panicked") := by
  refine ⟨?_, ?_, ?_⟩
  · intro halive
    simp [UnboundedChannel.send, halive]
  · intro htx
    simp [ClientHandle.execute_request, htx]
  · intro htx hdead
    simp [ClientHandle.execute_request, htx, UnboundedChannel.send, hdead]

/-- Witness for C8: a send onto a non-empty queue returning immediately, a
taken sender panicking, and a closed channel panicking. -/
theorem submit_nonblocking_or_panics_witness :
    UnboundedChannel.send ⟨[⟨"http://a/", none⟩], true⟩ (⟨"http://b/", none⟩ : Request) =
      .ok ⟨[⟨"http://a/", none⟩, ⟨"http://b/", none⟩], true⟩ ∧
    ClientHandle.execute_request ⟨⟨none⟩, ⟨none, some ()⟩⟩ ⟨[], true⟩
      ⟨"http://b/", none⟩ ⟨0, .producerDropped⟩ = .panicked "core thread exited early" ∧
    ClientHandle.execute_request ⟨⟨none⟩, ⟨some (), some ()⟩⟩ ⟨[], false⟩
      ⟨"http://b/", none⟩ ⟨0, .producerDropped⟩ = .panicked "core thread panicked" :=
  ⟨(submit_nonblocking_or_panics ⟨⟨none⟩, ⟨none, some ()⟩⟩ ⟨[⟨"http://a/", none⟩], true⟩
      ⟨"http://b/", none⟩ ⟨0, .producerDropped⟩).1 rfl,
   (submit_nonblocking_or_panics ⟨⟨none⟩, ⟨none, some ()⟩⟩ ⟨[], true⟩
      ⟨"http://b/", none⟩ ⟨0, .producerDropped⟩).2.1 rfl,
   (submit_nonblocking_or_panics ⟨⟨none⟩, ⟨some (), some ()⟩⟩ ⟨[], false⟩
      ⟨"http://b/", none⟩ ⟨0, .producerDropped⟩).2.2 rfl rfl⟩

/-- Witness for C5: a concrete receive step and a concrete terminating
step. -/
theorem dispatch_loop_spawns_and_terminates_witness :
    loopStep ⟨[⟨⟨"http://a/", none⟩, 0⟩], 2, [], [], false⟩ =
      ⟨[], 2, [⟨⟨"http://a/", none⟩, 0⟩], [], false⟩ ∧
    ((loopStep ⟨[], 0, [], [], false⟩).terminated = true ↔
      ([] : List DispatchMsg) = [] ∧ 0 = 0) :=
  ⟨dispatch_loop_spawns_and_terminates.1 ⟨[⟨⟨"http://a/", none⟩, 0⟩], 2, [], [], false⟩
      ⟨⟨"http://a/", none⟩, 0⟩ [] rfl rfl,
   dispatch_loop_spawns_and_terminates.2.2 ⟨[], 0, [], [], false⟩ rfl⟩

end BlockingClient
